import Mathlib

/-!
Verification of the slide-gen-ai content acquisition pipeline.

The Python sources are shallowly embedded:
* `JVal` models the values produced by `json.loads`; `SlidePlanner.is_valid`
  implements `SLIDE_PLAN_SCHEMA` (domain/schemas.py) as checked by
  `jsonschema.Draft202012Validator`.
* `to_slide_plan` embeds `domain/schemas.py:to_slide_plan`.
* `SlidePlanner.generate` embeds `application/ai_agent.py`; the chat client is
  modelled by the `json.loads` outcome of each of the (at most two) replies it
  returns in one `generate` call.
* `ChainedImageProvider.generate` and `ImageService.generate_image` embed
  `application/image_service.py`; providers are functions from prompt to either
  bytes or a raised exception.
* `renderSlide` / `PPTBuilder.add_slide` embed `application/ppt_builder.py`,
  with a python-pptx presentation modelled as the list of slides added to it.
* `mainImagePaths` embeds the image loop of `main.py`.
-/

/-- A JSON value as returned by Python's `json.loads`.  Objects are association
lists; `json.loads` yields a `dict`, so fields coming from parsing have
pairwise distinct keys.  Numbers are irrelevant to the slide-plan schema and
are carried as integers. -/
inductive JVal where
  | jnull
  | jbool (b : Bool)
  | jnum (n : Int)
  | jstr (s : String)
  | jarr (items : List JVal)
  | jobj (fields : List (String × JVal))

/-- Python `dict` lookup `fields[k]` on the association list of an object
(returns `none` where Python raises `KeyError`). -/
def lookup : List (String × JVal) → String → Option JVal
  | [], _ => none
  | kv :: rest, k => if kv.1 = k then some kv.2 else lookup rest k

/-- `k in fields` for a JSON object. -/
def hasKey : List (String × JVal) → String → Bool
  | [], _ => false
  | kv :: rest, k => decide (kv.1 = k) || hasKey rest k

/-- `{"type": "string", "minLength": 1}` from `SLIDE_PLAN_SCHEMA`. -/
def strMin1 : JVal → Bool
  | .jstr s => decide (1 ≤ s.length)
  | _ => false

/-- The `slide_type` schema: a string drawn from the enum
`["title", "section", "content"]`. -/
def slideTypeOk : JVal → Bool
  | .jstr s => decide (s = "title") || decide (s = "section") || decide (s = "content")
  | _ => false

/-- The `bullet_points` schema: an array of at most 5 strings, each of
length at least 1. -/
def bulletPointsOk : JVal → Bool
  | .jarr items => decide (items.length ≤ 5) && items.all strMin1
  | _ => false

/-- Per-key validity of a slide object's field, following the slide item
schema of `SLIDE_PLAN_SCHEMA`; an unknown key is rejected because the schema
sets `"additionalProperties": false`. -/
def slideFieldOk (k : String) (v : JVal) : Bool :=
  if k = "slide_type" then slideTypeOk v
  else if k = "heading" then strMin1 v
  else if k = "bullet_points" then bulletPointsOk v
  else if k = "image_prompt" then strMin1 v
  else false

/-- The slide item schema of `SLIDE_PLAN_SCHEMA`: an object whose every field
is valid for its key and that has the four required keys. -/
def slideOk : JVal → Bool
  | .jobj fields =>
      fields.all (fun kv => slideFieldOk kv.1 kv.2)
      && hasKey fields "slide_type" && hasKey fields "heading"
      && hasKey fields "bullet_points" && hasKey fields "image_prompt"
  | _ => false

/-- The `slides` schema: an array with `minItems: 1` whose items satisfy the
slide item schema. -/
def slidesOk : JVal → Bool
  | .jarr items => decide (1 ≤ items.length) && items.all slideOk
  | _ => false

/-- Per-key validity of a top-level field of `SLIDE_PLAN_SCHEMA`
(`additionalProperties: false` again rejects unknown keys). -/
def planFieldOk (k : String) (v : JVal) : Bool :=
  if k = "topic" then strMin1 v
  else if k = "slides" then slidesOk v
  else false

namespace SlidePlanner

/-- `SlidePlanner._is_valid`: `Draft202012Validator(SLIDE_PLAN_SCHEMA)`
reports no errors, i.e. the data is an object whose fields are all valid for
their keys and that has the required keys `topic` and `slides`. -/
def is_valid : JVal → Bool
  | .jobj fields =>
      fields.all (fun kv => planFieldOk kv.1 kv.2)
      && hasKey fields "topic" && hasKey fields "slides"
  | _ => false

end SlidePlanner

/-- `domain/schemas.py:Slide`. -/
structure Slide where
  slide_type : String
  heading : String
  bullet_points : List String
  image_prompt : String
deriving Repr, DecidableEq

/-- `domain/schemas.py:SlidePlan`. -/
structure SlidePlan where
  topic : String
  slides : List Slide
deriving Repr, DecidableEq

/-- `fields[k]` expected to be a string, as used by `to_slide_plan` on
schema-valid data (`none` models the run-time failure on other shapes). -/
def lookupStr (fields : List (String × JVal)) (k : String) : Option String :=
  match lookup fields k with
  | some (.jstr s) => some s
  | _ => none

/-- A JSON array expected to consist of strings. -/
def strList : List JVal → Option (List String)
  | [] => some []
  | .jstr s :: rest => (strList rest).map (fun ss => s :: ss)
  | _ => none

/-- `fields[k]` expected to be an array of strings. -/
def lookupStrList (fields : List (String × JVal)) (k : String) : Option (List String) :=
  match lookup fields k with
  | some (.jarr items) => strList items
  | _ => none

/-- The per-slide body of `to_slide_plan`: build a `Slide` from the four
fields of one slide dict. -/
def toSlide : JVal → Option Slide
  | .jobj sf =>
    match lookupStr sf "slide_type", lookupStr sf "heading",
          lookupStrList sf "bullet_points", lookupStr sf "image_prompt" with
    | some st, some hd, some bp, some ip => some ⟨st, hd, bp, ip⟩
    | _, _, _, _ => none
  | _ => none

/-- The list comprehension of `to_slide_plan` over `data["slides"]`. -/
def to_slides : List JVal → Option (List Slide)
  | [] => some []
  | v :: rest =>
    match toSlide v, to_slides rest with
    | some s, some ss => some (s :: ss)
    | _, _ => none

/-- `domain/schemas.py:to_slide_plan` (`none` models the run-time failure on
data that is not shaped like a `SlidePlanDict`; schema-valid data never hits
it). -/
def to_slide_plan : JVal → Option SlidePlan
  | .jobj fields =>
    match lookup fields "topic", lookup fields "slides" with
    | some (.jstr topic), some (.jarr items) =>
      match to_slides items with
      | some slides => some ⟨topic, slides⟩
      | none => none
    | _, _ => none
  | _ => none

namespace SlidePlanner

/-- The chat client as observed by one `SlidePlanner.generate` call: the
`json.loads` outcome of the reply to the initial prompt and of the reply to
the (at most one) repair prompt.  `none` stands for reply text that
`json.loads` rejects. -/
structure ChatClient where
  firstResponse : Option JVal
  repairResponse : Option JVal

/-- Exceptions `SlidePlanner.generate` can raise.  In Python,
`json.JSONDecodeError` is a subclass of `ValueError`, so both constructors
denote `ValueError`s. -/
inductive GenError where
  | jsonDecodeError
  | invalidAfterRepair
deriving Repr, DecidableEq

/-- Whether the raised exception is (an instance of) `ValueError`: true for
`ValueError("AI output is invalid after repair")` and also for
`json.JSONDecodeError`, which subclasses `ValueError`. -/
def GenError.isValueError : GenError → Bool
  | .jsonDecodeError => true
  | .invalidAfterRepair => true

/-- Whether reply text is a schema-valid slide plan: it must parse
(`json.loads` succeeds) and the parsed value must satisfy the schema. -/
def parsedValid : Option JVal → Bool
  | none => false
  | some v => is_valid v

/-- `SlidePlanner.generate` (ai_agent.py lines 32-41), returning the result
(`Except` models raising) together with the number of `client.chat` calls
made.  The flow: parse the first reply (a parse failure propagates), return
it if schema-valid, otherwise issue one repair chat call, parse its reply
(a parse failure propagates), return it if schema-valid, else raise
`ValueError("AI output is invalid after repair")`. -/
def generate (c : ChatClient) : Except GenError JVal × Nat :=
  match c.firstResponse with
  | none => (.error .jsonDecodeError, 1)
  | some data =>
    if is_valid data then (.ok data, 1)
    else
      match c.repairResponse with
      | none => (.error .jsonDecodeError, 2)
      | some repaired =>
        if is_valid repaired then (.ok repaired, 2)
        else (.error .invalidAfterRepair, 2)

/-- `SlidePlanner.generate_plan`: `to_slide_plan(self.generate(topic))`.
The inner `Option` records the conversion outcome. -/
def generate_plan (c : ChatClient) : Except GenError (Option SlidePlan) :=
  match (generate c).1 with
  | .ok j => .ok (to_slide_plan j)
  | .error e => .error e

end SlidePlanner

/-- Exceptions in the image pipeline. -/
inductive PyExc where
  | runtimeError (msg : String)
  | httpError (code : Nat)
  | other (tag : Nat)
deriving Repr, DecidableEq

/-- Image bytes: raw bytes obtained from a provider, or the PNG encoding of
the 1024x1024 placeholder that `_placeholder_image` draws with PIL (the PIL
rendering itself is modelled abstractly; the text drawn on it is kept). -/
inductive Bytes where
  | raw (data : List Nat)
  | placeholderPng (text : String)
deriving Repr, DecidableEq

/-- An `ImageProvider`: `generate` either returns bytes or raises. -/
def Provider : Type := String → Except PyExc Bytes

namespace ChainedImageProvider

/-- The provider loop of `ChainedImageProvider.generate` (image_service.py
lines 44-57), carrying `last_exc` and counting how many providers were
invoked. -/
def chainLoop (prompt : String) : List Provider → Option PyExc → Except PyExc Bytes × Nat
  | [], none => (.error (.runtimeError "No image providers configured"), 0)
  | [], some e => (.error e, 0)
  | p :: rest, _ =>
    match p prompt with
    | .ok b => (.ok b, 1)
    | .error e =>
      match chainLoop prompt rest (some e) with
      | (r, n) => (r, n + 1)

/-- `ChainedImageProvider.generate`: try providers in order, return the first
success, re-raise the last exception when all fail, and raise `RuntimeError`
when the provider list is empty.  The second component counts the providers
invoked. -/
def generate (providers : List Provider) (prompt : String) : Except PyExc Bytes × Nat :=
  chainLoop prompt providers none

end ChainedImageProvider

/-- `os.environ.get("REQUIRE_REAL_IMAGES", "0") == "1"`, with the environment
variable modelled as `Option String` (`none` = unset). -/
def requireRealImages (env : Option String) : Bool :=
  decide (env.getD "0" = "1")

/-- The text drawn on the placeholder:
`(prompt[:60] + "...") if len(prompt) > 60 else prompt`. -/
def placeholderText (prompt : String) : String :=
  if 60 < prompt.length then prompt.take 60 ++ "..." else prompt

/-- `ImageService._placeholder_image`: the PNG bytes of a synthesized
1024x1024 image carrying the (truncated) prompt text.  PIL drawing and PNG
encoding are modelled abstractly by the `Bytes.placeholderPng` constructor. -/
def placeholder_image (prompt : String) : Bytes :=
  .placeholderPng (placeholderText prompt)

/-- `ImageService._handle_image_failure`: raise `RuntimeError` when
`REQUIRE_REAL_IMAGES` is `"1"`, otherwise return the placeholder bytes (the
stderr warning is not modelled). -/
def handle_image_failure (env : Option String) (prompt : String) : Except PyExc Bytes :=
  if requireRealImages env then
    .error (.runtimeError
      "Image generation failed. Disable REQUIRE_REAL_IMAGES or allow placeholders.")
  else .ok (placeholder_image prompt)

/-- `ImageService` (image_service.py lines 86-101): output directory, primary
provider and optional fallback provider. -/
structure ImageService where
  output_dir : String
  primary : Provider
  fallback : Option Provider

/-- Observable outcome of one `ImageService.generate_image` call:
whether `output_dir.mkdir` ran, which file was written with which bytes,
and the returned path or raised exception. -/
structure ImgResult where
  dirCreated : Bool
  written : Option (String × Bytes)
  result : Except PyExc String
deriving Repr

/-- `ImageService.generate_image`: create the output directory, obtain bytes
from the primary provider, on any exception fall back to the fallback
provider when present, then to `_handle_image_failure`; write the bytes to
`output_dir/filename` and return that path.  An exception escaping
`_handle_image_failure` propagates before the write. -/
def ImageService.generate_image (env : Option String) (svc : ImageService)
    (prompt filename : String) : ImgResult :=
  let target := svc.output_dir ++ "/" ++ filename
  let content : Except PyExc Bytes :=
    match svc.primary prompt with
    | .ok c => .ok c
    | .error _ =>
      match svc.fallback with
      | some fb =>
        match fb prompt with
        | .ok c => .ok c
        | .error _ => handle_image_failure env prompt
      | none => handle_image_failure env prompt
  match content with
  | .ok c => { dirCreated := true, written := some (target, c), result := .ok target }
  | .error e => { dirCreated := true, written := none, result := .error e }

/-- `build_image_service` (image_service.py lines 130-141): the primary is a
`ChainedImageProvider` over the OpenAI, Unsplash and stock providers when
`USE_OPENAI_IMAGES` is `"1"`, else over Unsplash and stock; `fallback` is
`None` in both cases. -/
def build_image_service (useOpenaiImages : Bool)
    (openaiP unsplashP stockP : Provider) (output_dir : String) : ImageService :=
  if useOpenaiImages then
    { output_dir := output_dir
      primary := fun prompt =>
        (ChainedImageProvider.generate [openaiP, unsplashP, stockP] prompt).1
      fallback := none }
  else
    { output_dir := output_dir
      primary := fun prompt =>
        (ChainedImageProvider.generate [unsplashP, stockP] prompt).1
      fallback := none }

/-- A slide of the python-pptx presentation, recording what each
`PPTBuilder._add_*_slide` helper puts on it (layout geometry is not
modelled). -/
inductive RenderedSlide where
  | titleSlide (heading : String) (subtitle : Option String)
  | sectionSlide (heading : String) (paragraphs : List String)
  | contentSlide (heading : String) (bullets : List String) (picture : Option String)
deriving Repr, DecidableEq

/-- The dispatch of `PPTBuilder.add_slide` (ppt_builder.py lines 17-23)
together with the three `_add_*_slide` helpers, producing the one
presentation slide that the call appends.  `fsExists` models
`Path.exists` for the picture guard of `_add_content_slide`. -/
def renderSlide (fsExists : String → Bool) (slide : Slide)
    (image_path : Option String) : RenderedSlide :=
  if slide.slide_type = "title" then
    .titleSlide slide.heading
      (if 0 < slide.bullet_points.length
       then some (String.intercalate "\n" slide.bullet_points)
       else none)
  else if slide.slide_type = "section" then
    .sectionSlide slide.heading slide.bullet_points
  else
    .contentSlide slide.heading slide.bullet_points
      (match image_path with
       | some p => if fsExists p then some p else none
       | none => none)

namespace PPTBuilder

/-- `PPTBuilder.add_slide`: append the rendered slide to the presentation
(modelled as the list of its slides). -/
def add_slide (fsExists : String → Bool) (pres : List RenderedSlide)
    (slide : Slide) (image_path : Option String) : List RenderedSlide :=
  pres ++ [renderSlide fsExists slide image_path]

end PPTBuilder

/-- `build_presentation` (ppt_builder.py lines 71-75): start from an empty
presentation and `add_slide` for each `(slide, img)` pair of
`zip(slides, image_paths)`.  `main.py` lines 34-36 run the same loop. -/
def build_presentation (fsExists : String → Bool) (slides : List Slide)
    (image_paths : List String) : List RenderedSlide :=
  (slides.zip image_paths).foldl
    (fun pres si => PPTBuilder.add_slide fsExists pres si.1 (some si.2)) []

/-- Python `f"{idx:02d}"`: decimal, zero-padded to width 2. -/
def pad2 (n : Nat) : String :=
  if n < 10 then "0" ++ toString n else toString n

/-- The per-slide filename of `main.py` line 30: `f"slide_{idx:02d}.png"`. -/
def slideFilename (idx : Nat) : String :=
  "slide_" ++ pad2 idx ++ ".png"

/-- The image loop of `main` (main.py lines 28-32): for each slide, numbered
from `idx`, call `image_service.generate_image(slide.image_prompt, filename)`
and collect the returned paths; an exception aborts the loop (and `main`). -/
def mainImagePaths (env : Option String) (svc : ImageService) :
    List Slide → Nat → Except PyExc (List String)
  | [], _ => .ok []
  | slide :: rest, idx =>
    match (ImageService.generate_image env svc slide.image_prompt (slideFilename idx)).result with
    | .error e => .error e
    | .ok path =>
      match mainImagePaths env svc rest (idx + 1) with
      | .error e => .error e
      | .ok paths => .ok (path :: paths)

/-- The pairing performed by `main.py` line 35: `zip(plan.slides, image_paths)`
feeding `builder.add_slide`. -/
def mainPairs (env : Option String) (svc : ImageService) (slides : List Slide) :
    Except PyExc (List (Slide × String)) :=
  match mainImagePaths env svc slides 1 with
  | .error e => .error e
  | .ok paths => .ok (slides.zip paths)

/-- A concrete schema-valid slide dict, for witnesses. -/
def sampleSlideJ : JVal :=
  .jobj [("slide_type", .jstr "title"), ("heading", .jstr "Intro"),
         ("bullet_points", .jarr [.jstr "One"]), ("image_prompt", .jstr "img")]

/-- A concrete schema-valid slide plan dict, for witnesses. -/
def samplePlanJ : JVal :=
  .jobj [("topic", .jstr "Space"), ("slides", .jarr [sampleSlideJ])]

/-- A concrete content slide, for witnesses. -/
def sampleContentSlide : Slide :=
  ⟨"content", "Heading", ["point"], "an image"⟩

/-- A provider that always raises, for witnesses. -/
def failingProvider : Provider := fun _ => .error (.other 7)

/-- An image service whose only provider always raises, for witnesses. -/
def sampleService : ImageService :=
  ⟨"output/images", failingProvider, none⟩

/-! ## Helper lemmas -/

theorem lookup_of_all {P : String → JVal → Bool} :
    ∀ (fields : List (String × JVal)) (k : String),
      fields.all (fun kv => P kv.1 kv.2) = true → hasKey fields k = true →
      ∃ v, lookup fields k = some v ∧ P k v = true
  | [], k, _, hk => by simp [hasKey] at hk
  | kv :: rest, k, hall, hk => by
      rw [List.all_cons, Bool.and_eq_true] at hall
      by_cases h : kv.1 = k
      · exact ⟨kv.2, by simp [lookup, h], h ▸ hall.1⟩
      · have hk2 : hasKey rest k = true := by simpa [hasKey, h] using hk
        obtain ⟨v, hv, hp⟩ := lookup_of_all rest k hall.2 hk2
        exact ⟨v, by simp [lookup, h, hv], hp⟩

theorem ne_empty_of_one_le_length {s : String} (h : 1 ≤ s.length) : s ≠ "" := by
  intro hs
  rw [hs, String.length_empty] at h
  exact absurd h (by decide)

theorem strList_of_all :
    ∀ items : List JVal, items.all strMin1 = true →
      ∃ bp : List String, strList items = some bp ∧ items = bp.map JVal.jstr ∧
        bp.length = items.length ∧ ∀ b ∈ bp, b ≠ ""
  | [], _ => ⟨[], rfl, rfl, rfl, by intro b hb; simp at hb⟩
  | v :: rest, h => by
      rw [List.all_cons, Bool.and_eq_true] at h
      obtain ⟨h1, h2⟩ := h
      cases v with
      | jstr s =>
        obtain ⟨bp, hbp, heq, hlen, hne⟩ := strList_of_all rest h2
        refine ⟨s :: bp, ?_, ?_, ?_, ?_⟩
        · simp [strList, hbp]
        · simp [heq]
        · simp [hlen]
        · intro b hb
          rcases List.mem_cons.mp hb with hb | hb
          · subst hb
            exact ne_empty_of_one_le_length (by simpa [strMin1] using h1)
          · exact hne b hb
      | jnull => simp [strMin1] at h1
      | jbool b => simp [strMin1] at h1
      | jnum n => simp [strMin1] at h1
      | jarr xs => simp [strMin1] at h1
      | jobj fs => simp [strMin1] at h1

theorem slideTypeOk_cases {v : JVal} (h : slideTypeOk v = true) :
    ∃ st : String, v = .jstr st ∧
      (st = "title" ∨ st = "section" ∨ st = "content") := by
  cases v with
  | jstr s =>
    refine ⟨s, rfl, ?_⟩
    simpa [slideTypeOk, Bool.or_eq_true, decide_eq_true_eq, or_assoc] using h
  | jnull => simp [slideTypeOk] at h
  | jbool b => simp [slideTypeOk] at h
  | jnum n => simp [slideTypeOk] at h
  | jarr xs => simp [slideTypeOk] at h
  | jobj fs => simp [slideTypeOk] at h

theorem strMin1_cases {v : JVal} (h : strMin1 v = true) :
    ∃ s : String, v = .jstr s ∧ s ≠ "" := by
  cases v with
  | jstr s =>
    exact ⟨s, rfl, ne_empty_of_one_le_length (by simpa [strMin1] using h)⟩
  | jnull => simp [strMin1] at h
  | jbool b => simp [strMin1] at h
  | jnum n => simp [strMin1] at h
  | jarr xs => simp [strMin1] at h
  | jobj fs => simp [strMin1] at h

theorem bulletPointsOk_cases {v : JVal} (h : bulletPointsOk v = true) :
    ∃ bp : List String, v = .jarr (bp.map JVal.jstr) ∧
      strList (bp.map JVal.jstr) = some bp ∧ bp.length ≤ 5 ∧ ∀ b ∈ bp, b ≠ "" := by
  cases v with
  | jarr items =>
    rw [bulletPointsOk, Bool.and_eq_true, decide_eq_true_eq] at h
    obtain ⟨bp, hbp, heq, hlen, hne⟩ := strList_of_all items h.2
    subst heq
    exact ⟨bp, rfl, hbp, by omega, hne⟩
  | jnull => simp [bulletPointsOk] at h
  | jbool b => simp [bulletPointsOk] at h
  | jnum n => simp [bulletPointsOk] at h
  | jstr s => simp [bulletPointsOk] at h
  | jobj fs => simp [bulletPointsOk] at h

theorem toSlide_of_slideOk {v : JVal} (h : slideOk v = true) :
    ∃ (sf : List (String × JVal)) (st hd : String) (bp : List String) (ip : String),
      v = .jobj sf ∧
      lookup sf "slide_type" = some (.jstr st) ∧
      lookup sf "heading" = some (.jstr hd) ∧
      lookup sf "bullet_points" = some (.jarr (bp.map JVal.jstr)) ∧
      lookup sf "image_prompt" = some (.jstr ip) ∧
      toSlide v = some ⟨st, hd, bp, ip⟩ ∧
      (st = "title" ∨ st = "section" ∨ st = "content") ∧
      hd ≠ "" ∧ ip ≠ "" ∧ bp.length ≤ 5 ∧ (∀ b ∈ bp, b ≠ "") := by
  cases v with
  | jobj sf =>
    rw [slideOk, Bool.and_eq_true, Bool.and_eq_true, Bool.and_eq_true,
        Bool.and_eq_true] at h
    obtain ⟨⟨⟨⟨hall, hk1⟩, hk2⟩, hk3⟩, hk4⟩ := h
    obtain ⟨v1, l1, p1⟩ := lookup_of_all sf "slide_type" hall hk1
    obtain ⟨v2, l2, p2⟩ := lookup_of_all sf "heading" hall hk2
    obtain ⟨v3, l3, p3⟩ := lookup_of_all sf "bullet_points" hall hk3
    obtain ⟨v4, l4, p4⟩ := lookup_of_all sf "image_prompt" hall hk4
    rw [show slideFieldOk "slide_type" v1 = slideTypeOk v1 from rfl] at p1
    rw [show slideFieldOk "heading" v2 = strMin1 v2 from rfl] at p2
    rw [show slideFieldOk "bullet_points" v3 = bulletPointsOk v3 from rfl] at p3
    rw [show slideFieldOk "image_prompt" v4 = strMin1 v4 from rfl] at p4
    obtain ⟨st, rfl, hst⟩ := slideTypeOk_cases p1
    obtain ⟨hd, rfl, hhd⟩ := strMin1_cases p2
    obtain ⟨bp, rfl, hsl, hbp5, hbpne⟩ := bulletPointsOk_cases p3
    obtain ⟨ip, rfl, hip⟩ := strMin1_cases p4
    refine ⟨sf, st, hd, bp, ip, rfl, l1, l2, l3, l4, ?_, hst, hhd, hip, hbp5, hbpne⟩
    simp [toSlide, lookupStr, lookupStrList, l1, l2, l3, l4, hsl]
  | jnull => simp [slideOk] at h
  | jbool b => simp [slideOk] at h
  | jnum n => simp [slideOk] at h
  | jstr s => simp [slideOk] at h
  | jarr xs => simp [slideOk] at h

theorem to_slides_of_all :
    ∀ items : List JVal, (∀ v ∈ items, slideOk v = true) →
      ∃ ss, to_slides items = some ss ∧ ss.length = items.length ∧
        (∀ (i : Nat) (hi : i < items.length) (hi2 : i < ss.length),
          toSlide (items.get ⟨i, hi⟩) = some (ss.get ⟨i, hi2⟩)) ∧
        (∀ s ∈ ss, ∃ v ∈ items, toSlide v = some s)
  | [], _ => ⟨[], rfl, rfl, by intro i hi; simp at hi, by intro s hs; simp at hs⟩
  | v :: rest, h => by
      obtain ⟨sf, st, hd, bp, ip, hv, _, _, _, _, hts, _⟩ :=
        toSlide_of_slideOk (h v (List.mem_cons_self v rest))
      obtain ⟨ss, hss, hlen, hidx, hmem⟩ :=
        to_slides_of_all rest (fun w hw => h w (List.mem_cons_of_mem v hw))
      refine ⟨⟨st, hd, bp, ip⟩ :: ss, ?_, by simp [hlen], ?_, ?_⟩
      · simp [to_slides, hts, hss]
      · intro i hi hi2
        cases i with
        | zero => simpa using hts
        | succ n => exact hidx n (by simpa using hi) (by simpa using hi2)
      · intro s hs
        rcases List.mem_cons.mp hs with hs | hs
        · exact ⟨v, List.mem_cons_self v rest, hs ▸ hts⟩
        · obtain ⟨w, hw, hws⟩ := hmem s hs
          exact ⟨w, List.mem_cons_of_mem v hw, hws⟩

theorem to_slide_plan_of_valid {j : JVal} (h : SlidePlanner.is_valid j = true) :
    ∃ (fields : List (String × JVal)) (topic : String) (items : List JVal)
      (slides : List Slide),
      j = .jobj fields ∧
      lookup fields "topic" = some (.jstr topic) ∧
      lookup fields "slides" = some (.jarr items) ∧
      topic ≠ "" ∧ 1 ≤ items.length ∧
      (∀ v ∈ items, slideOk v = true) ∧
      to_slides items = some slides ∧
      slides.length = items.length ∧
      (∀ (i : Nat) (hi : i < items.length) (hi2 : i < slides.length),
        toSlide (items.get ⟨i, hi⟩) = some (slides.get ⟨i, hi2⟩)) ∧
      (∀ s ∈ slides, ∃ v ∈ items, toSlide v = some s) ∧
      to_slide_plan j = some ⟨topic, slides⟩ := by
  cases j with
  | jobj fields =>
    rw [SlidePlanner.is_valid, Bool.and_eq_true, Bool.and_eq_true] at h
    obtain ⟨⟨hall, hk1⟩, hk2⟩ := h
    obtain ⟨v1, l1, p1⟩ := lookup_of_all fields "topic" hall hk1
    obtain ⟨v2, l2, p2⟩ := lookup_of_all fields "slides" hall hk2
    rw [show planFieldOk "topic" v1 = strMin1 v1 from rfl] at p1
    rw [show planFieldOk "slides" v2 = slidesOk v2 from rfl] at p2
    obtain ⟨topic, rfl, htopic⟩ := strMin1_cases p1
    cases v2 with
    | jarr items =>
      rw [slidesOk, Bool.and_eq_true, decide_eq_true_eq, List.all_eq_true] at p2
      obtain ⟨hmin, hallok⟩ := p2
      obtain ⟨slides, hss, hlen, hidx, hmem⟩ := to_slides_of_all items hallok
      refine ⟨fields, topic, items, slides, rfl, l1, l2, htopic, hmin, hallok,
        hss, hlen, hidx, hmem, ?_⟩
      simp [to_slide_plan, l1, l2, hss]
    | jnull => simp [slidesOk] at p2
    | jbool b => simp [slidesOk] at p2
    | jnum n => simp [slidesOk] at p2
    | jstr s => simp [slidesOk] at p2
    | jobj fs => simp [slidesOk] at p2
  | jnull => simp [SlidePlanner.is_valid] at h
  | jbool b => simp [SlidePlanner.is_valid] at h
  | jnum n => simp [SlidePlanner.is_valid] at h
  | jstr s => simp [SlidePlanner.is_valid] at h
  | jarr xs => simp [SlidePlanner.is_valid] at h

theorem generate_first_unparsed (rr : Option JVal) :
    SlidePlanner.generate ⟨none, rr⟩ = (.error .jsonDecodeError, 1) := rfl

theorem generate_first_valid {d : JVal} (rr : Option JVal)
    (hv : SlidePlanner.is_valid d = true) :
    SlidePlanner.generate ⟨some d, rr⟩ = (.ok d, 1) := by
  simp [SlidePlanner.generate, hv]

theorem generate_repair_unparsed {d : JVal}
    (hv : SlidePlanner.is_valid d = false) :
    SlidePlanner.generate ⟨some d, none⟩ = (.error .jsonDecodeError, 2) := by
  simp [SlidePlanner.generate, hv]

theorem generate_repair_valid {d r : JVal}
    (hv : SlidePlanner.is_valid d = false) (hr : SlidePlanner.is_valid r = true) :
    SlidePlanner.generate ⟨some d, some r⟩ = (.ok r, 2) := by
  simp [SlidePlanner.generate, hv, hr]

theorem generate_repair_invalid {d r : JVal}
    (hv : SlidePlanner.is_valid d = false) (hr : SlidePlanner.is_valid r = false) :
    SlidePlanner.generate ⟨some d, some r⟩ = (.error .invalidAfterRepair, 2) := by
  simp [SlidePlanner.generate, hv, hr]

theorem generate_ok_valid {c : SlidePlanner.ChatClient} {j : JVal}
    (h : (SlidePlanner.generate c).1 = .ok j) : SlidePlanner.is_valid j = true := by
  obtain ⟨fr, rr⟩ := c
  cases fr with
  | none => rw [generate_first_unparsed] at h; simp at h
  | some d =>
    by_cases hv : SlidePlanner.is_valid d
    · rw [generate_first_valid rr hv] at h
      simp at h
      exact h ▸ hv
    · rw [Bool.not_eq_true] at hv
      cases rr with
      | none => rw [generate_repair_unparsed hv] at h; simp at h
      | some r =>
        by_cases hr : SlidePlanner.is_valid r
        · rw [generate_repair_valid hv hr] at h
          simp at h
          exact h ▸ hr
        · rw [Bool.not_eq_true] at hr
          rw [generate_repair_invalid hv hr] at h
          simp at h

theorem generate_image_ok_of_placeholders (env : Option String) (svc : ImageService)
    (prompt filename : String) (henv : requireRealImages env = false) :
    (ImageService.generate_image env svc prompt filename).result =
      .ok (svc.output_dir ++ "/" ++ filename) := by
  unfold ImageService.generate_image
  cases hp : svc.primary prompt with
  | ok c => simp
  | error e =>
    cases hf : svc.fallback with
    | none => simp [handle_image_failure, henv]
    | some fb =>
      cases hfb : fb prompt with
      | ok c => simp [hfb]
      | error e2 => simp [hfb, handle_image_failure, henv]

theorem chainLoop_cons (prompt : String) (p : Provider) (rest : List Provider)
    (acc : Option PyExc) :
    ChainedImageProvider.chainLoop prompt (p :: rest) acc =
      match p prompt with
      | .ok b => (.ok b, 1)
      | .error e =>
        ((ChainedImageProvider.chainLoop prompt rest (some e)).1,
          (ChainedImageProvider.chainLoop prompt rest (some e)).2 + 1) := rfl

theorem chainLoop_all_fail (prompt : String) :
    ∀ (ps : List Provider) (acc : Option PyExc) (pl : Provider) (e : PyExc),
      (∀ q ∈ ps, ∃ er, q prompt = .error er) →
      ps.getLast? = some pl → pl prompt = .error e →
      ChainedImageProvider.chainLoop prompt ps acc = (.error e, ps.length)
  | [], acc, pl, e, _, hlast, _ => by simp at hlast
  | p :: rest, acc, pl, e, hfail, hlast, hple => by
      obtain ⟨e0, he0⟩ := hfail p (List.mem_cons_self p rest)
      cases rest with
      | nil =>
        rw [List.getLast?_singleton, Option.some_inj] at hlast
        subst hlast
        rw [he0] at hple
        cases hple
        simp [ChainedImageProvider.chainLoop, he0]
      | cons r rs =>
        have hlast2 : (r :: rs).getLast? = some pl := by
          rw [← hlast, List.getLast?_cons_cons]
        have ih := chainLoop_all_fail prompt (r :: rs) (some e0) pl e
          (fun q hq => hfail q (List.mem_cons_of_mem p hq)) hlast2 hple
        rw [chainLoop_cons, he0]
        simp only [ih]
        simp

theorem chainLoop_first_success (prompt : String) (p : Provider) (b : Bytes)
    (hp : p prompt = .ok b) :
    ∀ (pre : List Provider) (post : List Provider) (acc : Option PyExc),
      (∀ q ∈ pre, ∃ er, q prompt = .error er) →
      ChainedImageProvider.chainLoop prompt (pre ++ p :: post) acc =
        (.ok b, pre.length + 1)
  | [], post, acc, _ => by simp [ChainedImageProvider.chainLoop, hp]
  | q :: pre, post, acc, hfail => by
      obtain ⟨e0, he0⟩ := hfail q (List.mem_cons_self q pre)
      have ih := chainLoop_first_success prompt p b hp pre post (some e0)
        (fun w hw => hfail w (List.mem_cons_of_mem q hw))
      simp [ChainedImageProvider.chainLoop, he0, ih]

theorem foldl_add_slide (fsExists : String → Bool) :
    ∀ (l : List (Slide × String)) (acc : List RenderedSlide),
      l.foldl (fun pres si => PPTBuilder.add_slide fsExists pres si.1 (some si.2)) acc =
        acc ++ l.map (fun si => renderSlide fsExists si.1 (some si.2))
  | [], acc => by simp
  | si :: rest, acc => by
      rw [List.foldl_cons, foldl_add_slide fsExists rest]
      simp [PPTBuilder.add_slide]

theorem build_presentation_eq_map (fsExists : String → Bool) (slides : List Slide)
    (paths : List String) :
    build_presentation fsExists slides paths =
      (slides.zip paths).map (fun si => renderSlide fsExists si.1 (some si.2)) := by
  rw [build_presentation, foldl_add_slide]
  simp

theorem mainImagePaths_ok (env : Option String) (svc : ImageService)
    (henv : requireRealImages env = false) :
    ∀ (slides : List Slide) (idx : Nat),
      ∃ paths, mainImagePaths env svc slides idx = .ok paths ∧
        paths.length = slides.length ∧
        ∀ (i : Nat) (hi : i < paths.length),
          paths.get ⟨i, hi⟩ = svc.output_dir ++ "/" ++ slideFilename (idx + i)
  | [], idx => ⟨[], rfl, rfl, by intro i hi; simp at hi⟩
  | slide :: rest, idx => by
      obtain ⟨paths, hps, hlen, hidx⟩ := mainImagePaths_ok env svc henv rest (idx + 1)
      refine ⟨(svc.output_dir ++ "/" ++ slideFilename idx) :: paths, ?_, by simp [hlen], ?_⟩
      · rw [mainImagePaths,
          generate_image_ok_of_placeholders env svc slide.image_prompt (slideFilename idx) henv,
          hps]
      · intro i hi
        cases i with
        | zero => simp
        | succ n =>
          have := hidx n (by simpa using hi)
          simpa [Nat.add_comm, Nat.add_assoc, Nat.add_left_comm] using this

/-! ## Claim theorems -/

/-- C1: `SlidePlanner.generate` either returns schema-valid data or raises:
when the first reply parses as JSON but fails schema validation, exactly one
repair chat call is issued (two chat calls in total), and a `ValueError` is
raised iff the repaired output is not a schema-valid plan (a repair reply
that `json.loads` rejects raises `json.JSONDecodeError`, which is itself a
`ValueError`); a schema-valid first reply is returned unchanged after a
single chat call. -/
theorem generate_schema_contract (c : SlidePlanner.ChatClient) :
    (∀ j, (SlidePlanner.generate c).1 = .ok j → SlidePlanner.is_valid j = true) ∧
    (∀ d, c.firstResponse = some d → SlidePlanner.is_valid d = false →
      (SlidePlanner.generate c).2 = 2 ∧
      ((∃ e, (SlidePlanner.generate c).1 = .error e ∧ e.isValueError = true) ↔
        SlidePlanner.parsedValid c.repairResponse = false)) ∧
    (∀ d, c.firstResponse = some d → SlidePlanner.is_valid d = true →
      SlidePlanner.generate c = (.ok d, 1)) := by
  obtain ⟨fr, rr⟩ := c
  cases fr with
  | none =>
    refine ⟨fun j h => generate_ok_valid h, ?_, ?_⟩ <;>
      · intro d hd
        exact absurd hd (by simp)
  | some d0 =>
    refine ⟨fun j h => generate_ok_valid h, ?_, ?_⟩
    · intro d hd hv
      have hd0 : d0 = d := by simpa using hd
      subst hd0
      cases rr with
      | none =>
        rw [generate_repair_unparsed hv]
        exact ⟨rfl, by simp [SlidePlanner.parsedValid,
          SlidePlanner.GenError.isValueError]⟩
      | some r =>
        by_cases hr : SlidePlanner.is_valid r
        · rw [generate_repair_valid hv hr]
          exact ⟨rfl, by simp [SlidePlanner.parsedValid, hr]⟩
        · rw [Bool.not_eq_true] at hr
          rw [generate_repair_invalid hv hr]
          exact ⟨rfl, by simp [SlidePlanner.parsedValid, hr,
            SlidePlanner.GenError.isValueError]⟩
    · intro d hd hv
      have hd0 : d0 = d := by simpa using hd
      subst hd0
      exact generate_first_valid rr hv

/-- Witness for C1: first reply parses as `null` (schema-invalid), repair
reply is a valid plan; the repair call is issued and no `ValueError`
escapes. -/
theorem generate_schema_contract_witness :
    (SlidePlanner.generate ⟨some .jnull, some samplePlanJ⟩).2 = 2 ∧
    ((∃ e, (SlidePlanner.generate ⟨some .jnull, some samplePlanJ⟩).1 = .error e ∧
        e.isValueError = true) ↔
      SlidePlanner.parsedValid (some samplePlanJ) = false) :=
  (generate_schema_contract ⟨some .jnull, some samplePlanJ⟩).2.1 .jnull rfl rfl

/-- C4 counterexample: with a first reply that `json.loads` rejects (and a
repair reply that would even be a valid plan), `generate` raises after one
single chat call: the repair stage is skipped, not performed. -/
theorem generate_unparsed_skips_repair :
    SlidePlanner.generate ⟨none, some samplePlanJ⟩ =
      (.error .jsonDecodeError, 1) := rfl

/-- C4 (amended): the repair stage covers exactly the first replies that
parse as JSON but fail schema validation; a first reply that is not
parseable as JSON raises `json.JSONDecodeError` immediately, with no repair
request. -/
theorem generate_repair_coverage (c : SlidePlanner.ChatClient) :
    (c.firstResponse = none →
      SlidePlanner.generate c = (.error .jsonDecodeError, 1)) ∧
    (∀ d, c.firstResponse = some d → SlidePlanner.is_valid d = false →
      (SlidePlanner.generate c).2 = 2) := by
  obtain ⟨fr, rr⟩ := c
  cases fr with
  | none =>
    refine ⟨fun _ => rfl, ?_⟩
    intro d hd
    exact absurd hd (by simp)
  | some d0 =>
    refine ⟨fun h => absurd h (by simp), ?_⟩
    intro d hd hv
    have hd0 : d0 = d := by simpa using hd
    subst hd0
    cases rr with
    | none => rw [generate_repair_unparsed hv]
    | some r =>
      by_cases hr : SlidePlanner.is_valid r
      · rw [generate_repair_valid hv hr]
      · rw [Bool.not_eq_true] at hr
        rw [generate_repair_invalid hv hr]

/-- Witness for the amended C4 at a client with an unparseable first reply. -/
theorem generate_repair_coverage_witness :
    SlidePlanner.generate ⟨none, none⟩ = (.error .jsonDecodeError, 1) :=
  (generate_repair_coverage ⟨none, none⟩).1 rfl

/-- C5: any `SlidePlan` returned by `generate_plan` is well-formed: a
non-empty topic, at least one slide, and every slide has a slide_type from
`{title, section, content}`, a non-empty heading, a non-empty image prompt,
and at most 5 bullet points, each a non-empty string. -/
theorem generate_plan_well_formed (c : SlidePlanner.ChatClient)
    (o : Option SlidePlan) (h : SlidePlanner.generate_plan c = .ok o) :
    ∃ p, o = some p ∧ p.topic ≠ "" ∧ 1 ≤ p.slides.length ∧
      ∀ s ∈ p.slides,
        (s.slide_type = "title" ∨ s.slide_type = "section" ∨
          s.slide_type = "content") ∧
        s.heading ≠ "" ∧ s.image_prompt ≠ "" ∧
        s.bullet_points.length ≤ 5 ∧ ∀ b ∈ s.bullet_points, b ≠ "" := by
  have hj : ∃ j, (SlidePlanner.generate c).1 = .ok j ∧ o = to_slide_plan j := by
    unfold SlidePlanner.generate_plan at h
    cases hg : (SlidePlanner.generate c).1 with
    | error e => rw [hg] at h; simp at h
    | ok j =>
      rw [hg] at h
      simp at h
      exact ⟨j, rfl, h.symm⟩
  obtain ⟨j, hok, ho⟩ := hj
  obtain ⟨fields, topic, items, slides, rfl, l1, l2, htop, hmin, hallok, hss,
    hlen, hidx, hmem, hplan⟩ := to_slide_plan_of_valid (generate_ok_valid hok)
  refine ⟨⟨topic, slides⟩, ho.trans hplan, htop, ?_, ?_⟩
  · show 1 ≤ slides.length
    rw [hlen]
    exact hmin
  · intro s hs
    obtain ⟨v, hv, hvs⟩ := hmem s hs
    obtain ⟨sf, st, hd, bp, ip, hveq, _, _, _, _, hts, hstEnum, hhd, hip,
      hbp5, hbpne⟩ := toSlide_of_slideOk (hallok v hv)
    rw [hts] at hvs
    have hse : (⟨st, hd, bp, ip⟩ : Slide) = s := by
      injection hvs
    subst hse
    exact ⟨hstEnum, hhd, hip, hbp5, hbpne⟩

/-- Witness for C5 at a client whose first reply is a concrete valid plan. -/
theorem generate_plan_well_formed_witness :
    SlidePlanner.generate_plan ⟨some samplePlanJ, none⟩ =
      .ok (to_slide_plan samplePlanJ) ∧
    ∃ p, to_slide_plan samplePlanJ = some p ∧ p.topic ≠ "" ∧
      1 ≤ p.slides.length ∧
      ∀ s ∈ p.slides,
        (s.slide_type = "title" ∨ s.slide_type = "section" ∨
          s.slide_type = "content") ∧
        s.heading ≠ "" ∧ s.image_prompt ≠ "" ∧
        s.bullet_points.length ≤ 5 ∧ ∀ b ∈ s.bullet_points, b ≠ "" :=
  ⟨rfl, generate_plan_well_formed ⟨some samplePlanJ, none⟩
    (to_slide_plan samplePlanJ) rfl⟩

/-- C10: on every schema-valid plan dict, `to_slide_plan` is a faithful
conversion: the resulting `SlidePlan` has the same topic, the same number of
slides, and the i-th slide's `slide_type`, `heading`, `bullet_points` and
`image_prompt` equal the corresponding fields of the i-th slide dict. -/
theorem to_slide_plan_faithful (j : JVal) (h : SlidePlanner.is_valid j = true) :
    ∃ (fields : List (String × JVal)) (topic : String) (items : List JVal)
      (plan : SlidePlan),
      j = .jobj fields ∧
      lookup fields "topic" = some (.jstr topic) ∧
      lookup fields "slides" = some (.jarr items) ∧
      to_slide_plan j = some plan ∧
      plan.topic = topic ∧
      plan.slides.length = items.length ∧
      ∀ (i : Nat) (hi : i < items.length) (hi2 : i < plan.slides.length),
        ∃ sf : List (String × JVal),
          items.get ⟨i, hi⟩ = .jobj sf ∧
          lookup sf "slide_type" =
            some (.jstr (plan.slides.get ⟨i, hi2⟩).slide_type) ∧
          lookup sf "heading" =
            some (.jstr (plan.slides.get ⟨i, hi2⟩).heading) ∧
          lookup sf "bullet_points" =
            some (.jarr ((plan.slides.get ⟨i, hi2⟩).bullet_points.map JVal.jstr)) ∧
          lookup sf "image_prompt" =
            some (.jstr (plan.slides.get ⟨i, hi2⟩).image_prompt) := by
  obtain ⟨fields, topic, items, slides, rfl, l1, l2, htop, hmin, hallok, hss,
    hlen, hidx, hmem, hplan⟩ := to_slide_plan_of_valid h
  refine ⟨fields, topic, items, ⟨topic, slides⟩, rfl, l1, l2, hplan, rfl,
    hlen, ?_⟩
  intro i hi hi2
  obtain ⟨sf, st, hd, bp, ip, hveq, s1, s2, s3, s4, hts, _⟩ :=
    toSlide_of_slideOk (hallok (items.get ⟨i, hi⟩) (items.get_mem i hi))
  have hgs := hidx i hi hi2
  rw [hts] at hgs
  have hse : (⟨st, hd, bp, ip⟩ : Slide) = slides.get ⟨i, hi2⟩ := by
    injection hgs
  have e1 : st = (slides.get ⟨i, hi2⟩).slide_type := congrArg Slide.slide_type hse
  have e2 : hd = (slides.get ⟨i, hi2⟩).heading := congrArg Slide.heading hse
  have e3 : bp = (slides.get ⟨i, hi2⟩).bullet_points :=
    congrArg Slide.bullet_points hse
  have e4 : ip = (slides.get ⟨i, hi2⟩).image_prompt := congrArg Slide.image_prompt hse
  exact ⟨sf, hveq, e1 ▸ s1, e2 ▸ s2, e3 ▸ s3, e4 ▸ s4⟩

/-- Witness for C10 at the concrete valid plan dict `samplePlanJ`. -/
theorem to_slide_plan_faithful_witness :
    ∃ (fields : List (String × JVal)) (topic : String) (items : List JVal)
      (plan : SlidePlan),
      samplePlanJ = .jobj fields ∧
      lookup fields "topic" = some (.jstr topic) ∧
      lookup fields "slides" = some (.jarr items) ∧
      to_slide_plan samplePlanJ = some plan ∧
      plan.topic = topic ∧
      plan.slides.length = items.length ∧
      ∀ (i : Nat) (hi : i < items.length) (hi2 : i < plan.slides.length),
        ∃ sf : List (String × JVal),
          items.get ⟨i, hi⟩ = .jobj sf ∧
          lookup sf "slide_type" =
            some (.jstr (plan.slides.get ⟨i, hi2⟩).slide_type) ∧
          lookup sf "heading" =
            some (.jstr (plan.slides.get ⟨i, hi2⟩).heading) ∧
          lookup sf "bullet_points" =
            some (.jarr ((plan.slides.get ⟨i, hi2⟩).bullet_points.map JVal.jstr)) ∧
          lookup sf "image_prompt" =
            some (.jstr (plan.slides.get ⟨i, hi2⟩).image_prompt) :=
  to_slide_plan_faithful samplePlanJ rfl

/-- C2: when placeholders are allowed (`REQUIRE_REAL_IMAGES` unset or not
equal to `"1"`), `ImageService.generate_image` never fails: some bytes are
written to `output_dir/filename` and that path is returned; in particular,
when every provider raises, the bytes written are the synthesized
placeholder PNG. -/
theorem generate_image_total (env : Option String) (svc : ImageService)
    (prompt filename : String) (henv : requireRealImages env = false) :
    ∃ b, ImageService.generate_image env svc prompt filename =
        { dirCreated := true,
          written := some (svc.output_dir ++ "/" ++ filename, b),
          result := .ok (svc.output_dir ++ "/" ++ filename) } ∧
      (((∃ e, svc.primary prompt = .error e) ∧
          (∀ fb, svc.fallback = some fb → ∃ e, fb prompt = .error e)) →
        b = placeholder_image prompt) := by
  unfold ImageService.generate_image
  cases hp : svc.primary prompt with
  | ok c =>
    refine ⟨c, by simp, ?_⟩
    rintro ⟨⟨e, he⟩, -⟩
    exact absurd he (by simp)
  | error e =>
    cases hf : svc.fallback with
    | none =>
      refine ⟨placeholder_image prompt, ?_, fun _ => rfl⟩
      simp [handle_image_failure, henv]
    | some fb =>
      cases hfb : fb prompt with
      | ok c =>
        refine ⟨c, by simp [hfb], ?_⟩
        rintro ⟨-, hall⟩
        obtain ⟨e2, he2⟩ := hall fb rfl
        rw [hfb] at he2
        exact absurd he2 (by simp)
      | error e2 =>
        refine ⟨placeholder_image prompt, ?_, fun _ => rfl⟩
        simp [hfb, handle_image_failure, henv]

/-- Witness for C2: environment unset, one always-raising provider. -/
theorem generate_image_total_witness :
    ∃ b, ImageService.generate_image none sampleService "p" "f.png" =
        { dirCreated := true,
          written := some (sampleService.output_dir ++ "/" ++ "f.png", b),
          result := .ok (sampleService.output_dir ++ "/" ++ "f.png") } ∧
      (((∃ e, sampleService.primary "p" = .error e) ∧
          (∀ fb, sampleService.fallback = some fb → ∃ e, fb "p" = .error e)) →
        b = placeholder_image "p") :=
  generate_image_total none sampleService "p" "f.png" rfl

/-- C8: with `REQUIRE_REAL_IMAGES` equal to `"1"` and every provider raising,
`generate_image` raises `RuntimeError` and writes no file, though the output
directory is still created before the failure. -/
theorem generate_image_require_real (env : Option String) (svc : ImageService)
    (prompt filename : String) (henv : env = some "1")
    (hp : ∃ e, svc.primary prompt = .error e)
    (hf : ∀ fb, svc.fallback = some fb → ∃ e, fb prompt = .error e) :
    ImageService.generate_image env svc prompt filename =
      { dirCreated := true, written := none,
        result := .error (.runtimeError
          "Image generation failed. Disable REQUIRE_REAL_IMAGES or allow placeholders.") } := by
  have hrr : requireRealImages env = true := by
    subst henv
    rfl
  obtain ⟨e, he⟩ := hp
  unfold ImageService.generate_image
  cases hpp : svc.primary prompt with
  | ok c =>
    rw [hpp] at he
    exact absurd he (by simp)
  | error e0 =>
    cases hfo : svc.fallback with
    | none => simp [handle_image_failure, hrr]
    | some fb =>
      obtain ⟨e2, he2⟩ := hf fb hfo
      cases hfb : fb prompt with
      | ok c =>
        rw [hfb] at he2
        exact absurd he2 (by simp)
      | error e3 => simp [hfb, handle_image_failure, hrr]

/-- Witness for C8: `REQUIRE_REAL_IMAGES=1`, one always-raising provider. -/
theorem generate_image_require_real_witness :
    ImageService.generate_image (some "1") sampleService "p" "f.png" =
      { dirCreated := true, written := none,
        result := .error (.runtimeError
          "Image generation failed. Disable REQUIRE_REAL_IMAGES or allow placeholders.") } :=
  generate_image_require_real (some "1") sampleService "p" "f.png" rfl
    ⟨.other 7, rfl⟩ (fun _ h => Option.noConfusion h)

/-- C3: `ChainedImageProvider.generate` tries its providers in list order and
returns the bytes of the first provider that does not raise, invoking only
the providers up to and including it; when every provider raises it
re-raises the last provider's exception after invoking them all; with an
empty provider list it raises `RuntimeError`. -/
theorem chained_generate_spec (prompt : String) :
    ChainedImageProvider.generate [] prompt =
      (.error (.runtimeError "No image providers configured"), 0) ∧
    (∀ (pre post : List Provider) (p : Provider) (b : Bytes),
      (∀ q ∈ pre, ∃ er, q prompt = .error er) → p prompt = .ok b →
      ChainedImageProvider.generate (pre ++ p :: post) prompt =
        (.ok b, pre.length + 1)) ∧
    (∀ (ps : List Provider) (pl : Provider) (e : PyExc),
      (∀ q ∈ ps, ∃ er, q prompt = .error er) →
      ps.getLast? = some pl → pl prompt = .error e →
      ChainedImageProvider.generate ps prompt = (.error e, ps.length)) := by
  refine ⟨rfl, ?_, ?_⟩
  · intro pre post p b hfail hp
    exact chainLoop_first_success prompt p b hp pre post none hfail
  · intro ps pl e hfail hlast hple
    exact chainLoop_all_fail prompt ps none pl e hfail hlast hple

/-- Witness for C3: a failing provider followed by a succeeding one; both are
invoked and the second one's bytes are returned. -/
theorem chained_generate_spec_witness :
    ChainedImageProvider.generate
        [failingProvider, fun _ => .ok (.raw [1, 2])] "x" =
      (.ok (.raw [1, 2]), 2) :=
  (chained_generate_spec "x").2.1 [failingProvider] []
    (fun _ => .ok (.raw [1, 2])) (.raw [1, 2])
    (fun q hq => ⟨.other 7, by rw [List.mem_singleton] at hq; rw [hq]; rfl⟩) rfl

/-- C6: with placeholders allowed, the main image loop issues exactly one
`generate_image` request per slide and yields one path per slide, the i-th
(0-based) path being `output_dir/slide_{i+1:02d}.png`; `zip` then pairs the
i-th path with the i-th slide for the builder. -/
theorem main_one_image_per_slide (env : Option String) (svc : ImageService)
    (slides : List Slide) (henv : requireRealImages env = false) :
    ∃ paths, mainImagePaths env svc slides 1 = .ok paths ∧
      paths.length = slides.length ∧
      (∀ (i : Nat) (hi : i < paths.length),
        paths.get ⟨i, hi⟩ = svc.output_dir ++ "/" ++ slideFilename (i + 1)) ∧
      mainPairs env svc slides = .ok (slides.zip paths) ∧
      (slides.zip paths).length = slides.length ∧
      (∀ (i : Nat) (s : Slide) (pth : String),
        slides.get? i = some s → paths.get? i = some pth →
        (slides.zip paths).get? i = some (s, pth)) := by
  obtain ⟨paths, hps, hlen, hidx⟩ := mainImagePaths_ok env svc henv slides 1
  refine ⟨paths, hps, hlen, ?_, ?_, ?_, ?_⟩
  · intro i hi
    rw [hidx i hi, Nat.add_comm]
  · unfold mainPairs
    rw [hps]
  · rw [List.length_zip, hlen, Nat.min_self]
  · intro i s pth hs hp
    exact (List.get?_zip_eq_some slides paths (s, pth) i).mpr ⟨hs, hp⟩

/-- Witness for C6: a one-slide plan with an always-raising provider and
placeholders allowed. -/
theorem main_one_image_per_slide_witness :
    ∃ paths, mainImagePaths none sampleService [sampleContentSlide] 1 = .ok paths ∧
      paths.length = [sampleContentSlide].length ∧
      (∀ (i : Nat) (hi : i < paths.length),
        paths.get ⟨i, hi⟩ =
          sampleService.output_dir ++ "/" ++ slideFilename (i + 1)) ∧
      mainPairs none sampleService [sampleContentSlide] =
        .ok ([sampleContentSlide].zip paths) ∧
      ([sampleContentSlide].zip paths).length = [sampleContentSlide].length ∧
      (∀ (i : Nat) (s : Slide) (pth : String),
        [sampleContentSlide].get? i = some s → paths.get? i = some pth →
        ([sampleContentSlide].zip paths).get? i = some (s, pth)) :=
  main_one_image_per_slide none sampleService [sampleContentSlide] rfl

/-- C7: `add_slide` appends exactly one presentation slide per plan slide,
dispatching on `slide_type`: `"title"` renders the title layout with the
bullet points joined as subtitle when non-empty, `"section"` the section
layout with one paragraph per bullet point, and every other `slide_type` the
content layout with an optional picture; rendering a full plan hence yields
one presentation slide per plan entry, in order. -/
theorem add_slide_one_per_entry (fsExists : String → Bool) :
    (∀ (pres : List RenderedSlide) (slide : Slide) (ip : Option String),
      (PPTBuilder.add_slide fsExists pres slide ip).length = pres.length + 1) ∧
    (∀ (slide : Slide) (ip : Option String),
      (slide.slide_type = "title" →
        renderSlide fsExists slide ip =
          .titleSlide slide.heading
            (if 0 < slide.bullet_points.length
             then some (String.intercalate "\n" slide.bullet_points)
             else none)) ∧
      (slide.slide_type = "section" →
        renderSlide fsExists slide ip =
          .sectionSlide slide.heading slide.bullet_points) ∧
      (slide.slide_type ≠ "title" → slide.slide_type ≠ "section" →
        ∃ pic, renderSlide fsExists slide ip =
          .contentSlide slide.heading slide.bullet_points pic)) ∧
    (∀ (slides : List Slide) (paths : List String),
      paths.length = slides.length →
      (build_presentation fsExists slides paths).length = slides.length ∧
      ∀ (i : Nat) (s : Slide) (pth : String),
        slides.get? i = some s → paths.get? i = some pth →
        (build_presentation fsExists slides paths).get? i =
          some (renderSlide fsExists s (some pth))) := by
  refine ⟨?_, ?_, ?_⟩
  · intro pres slide ip
    simp [PPTBuilder.add_slide]
  · intro slide ip
    refine ⟨?_, ?_, ?_⟩
    · intro ht
      simp [renderSlide, ht]
    · intro hs
      simp [renderSlide, hs]
    · intro h1 h2
      refine ⟨(match ip with
               | some p => if fsExists p then some p else none
               | none => none), ?_⟩
      unfold renderSlide
      rw [if_neg h1, if_neg h2]
  · intro slides paths hlen
    constructor
    · rw [build_presentation_eq_map, List.length_map, List.length_zip, hlen,
        Nat.min_self]
    · intro i s pth hs hp
      rw [build_presentation_eq_map, List.get?_map,
        (List.get?_zip_eq_some slides paths (s, pth) i).mpr ⟨hs, hp⟩]
      rfl

/-- Witness for C7 at a one-entry plan. -/
theorem add_slide_one_per_entry_witness :
    (build_presentation (fun _ => false) [sampleContentSlide]
      ["output/images/slide_01.png"]).length = [sampleContentSlide].length :=
  ((add_slide_one_per_entry (fun _ => false)).2.2 [sampleContentSlide]
    ["output/images/slide_01.png"] rfl).1

/-- C9: for a content slide (any `slide_type` other than `"title"` and
`"section"`), a picture is embedded iff `image_path` is not `None` and the
file exists; a `None` path or a missing file never prevents the slide from
being added — it is rendered without a picture. -/
theorem content_slide_picture_guard (fsExists : String → Bool)
    (pres : List RenderedSlide) (slide : Slide) (ip : Option String)
    (h1 : slide.slide_type ≠ "title") (h2 : slide.slide_type ≠ "section") :
    (PPTBuilder.add_slide fsExists pres slide ip).length = pres.length + 1 ∧
    (∀ p : String,
      renderSlide fsExists slide ip =
          .contentSlide slide.heading slide.bullet_points (some p) ↔
        (ip = some p ∧ fsExists p = true)) ∧
    ((ip = none ∨ ∃ p, ip = some p ∧ fsExists p = false) →
      renderSlide fsExists slide ip =
        .contentSlide slide.heading slide.bullet_points none) := by
  have hr : renderSlide fsExists slide ip =
      .contentSlide slide.heading slide.bullet_points
        (match ip with
         | some p => if fsExists p then some p else none
         | none => none) := by
    unfold renderSlide
    rw [if_neg h1, if_neg h2]
  refine ⟨by simp [PPTBuilder.add_slide], ?_, ?_⟩
  · intro p
    rw [hr]
    cases ip with
    | none => simp
    | some q =>
      by_cases hq : fsExists q
      · simp only [if_pos hq]
        constructor
        · intro h
          simp at h
          subst h
          exact ⟨rfl, hq⟩
        · rintro ⟨hqp, -⟩
          have hqp2 : q = p := by injection hqp
          subst hqp2
          rfl
      · simp only [if_neg hq]
        constructor
        · intro h
          exact absurd h (by simp)
        · rintro ⟨hqp, hfp⟩
          have hqp2 : q = p := by injection hqp
          subst hqp2
          exact absurd hfp hq
  · intro hcase
    rw [hr]
    rcases hcase with rfl | ⟨p, rfl, hp⟩
    · rfl
    · simp [hp]

/-- Witness for C9: a content slide with no image path still yields a slide,
with no picture. -/
theorem content_slide_picture_guard_witness :
    (PPTBuilder.add_slide (fun _ => false) [] sampleContentSlide none).length =
      List.length ([] : List RenderedSlide) + 1 ∧
    renderSlide (fun _ => false) sampleContentSlide none =
      .contentSlide sampleContentSlide.heading sampleContentSlide.bullet_points
        none := by
  have h := content_slide_picture_guard (fun _ => false) [] sampleContentSlide
    none (by decide) (by decide)
  exact ⟨h.1, h.2.2 (Or.inl rfl)⟩
